import Mathlib

/-!
Verification development for the F1 analytics incremental ingestion pipeline.

Shallow embedding of the components under `analytics/processing` and
`analytics/flows`:
  * driver identity resolution (`driver_matching.py`),
  * gap detection over the persisted store (`gap_detection.py`),
  * the session planner (`session_processor.py`),
  * loader failure classification (`loaders.py`),
  * the per-session orchestrator step and run tally (`import_fastf1.py`).

Persisted state is modelled as an explicit record of tables; operations that
touch the store are written in state-passing style (every primitive returns
the possibly-updated store), so read-only-ness is a provable property.
-/

namespace F1

/-! ## String helpers (Python semantics) -/

/-- `str.lower()` restricted to the character-wise lowering used for ASCII
names and error messages. -/
def strLower (s : String) : String := String.mk (s.toList.map Char.toLower)

/-- Python `' ' in full_name`. -/
def strContainsSpace (s : String) : Bool := s.toList.contains ' '

/-- Split a character list at every whitespace character, keeping empty
pieces (the pieces between consecutive separators). -/
def splitOnWs : List Char → List (List Char)
  | [] => [[]]
  | c :: cs =>
      if c.isWhitespace then [] :: splitOnWs cs
      else
        match splitOnWs cs with
        | t :: ts => (c :: t) :: ts
        | [] => [[c]]

/-- Python `str.split()` with no argument: split on whitespace runs,
dropping empty pieces. -/
def pySplit (s : String) : List String :=
  ((splitOnWs s.toList).map String.mk).filter (fun t => t ≠ "")

/-- Python `str.strip()`: drop leading and trailing whitespace. -/
def pyStrip (s : String) : String :=
  String.mk (((s.toList.dropWhile Char.isWhitespace).reverse.dropWhile
    Char.isWhitespace).reverse)

/-- Python `lst[-1]` on `full_name.split()`, defaulting to `""`.
(The source would raise `IndexError` on a whitespace-only name; that case is
unreachable in the claims considered, which require a space plus a match or
an explicit concrete name.) -/
def lastTokenD (s : String) : String := ((pySplit s).getLast?).getD ""

/-- One step of Python `str.title()`: a character following a letter is
lowercased, one following a non-letter is uppercased. -/
def pyTitleAux : Bool → List Char → List Char
  | _, [] => []
  | prevAlpha, c :: cs =>
      (if prevAlpha then c.toLower else c.toUpper) :: pyTitleAux c.isAlpha cs

/-- Python `str.title()`. -/
def pyTitle (s : String) : String := String.mk (pyTitleAux false s.toList)

/-- `normalize_name` from `driver_matching.py`:
`name.strip().title() if name else ""`. -/
def normalize_name (name : String) : String :=
  if name ≠ "" then pyTitle (pyStrip name) else ""

/-- `pat` starts the list `l`. -/
def startsWithL : List Char → List Char → Bool
  | [], _ => true
  | _ :: _, [] => false
  | a :: as, b :: bs => a == b && startsWithL as bs

/-- `pat` occurs contiguously inside `l` (Python `pat in s`). -/
def containsSub (pat : List Char) : List Char → Bool
  | [] => startsWithL pat []
  | c :: cs => startsWithL pat (c :: cs) || containsSub pat cs

/-- Python `keyword in error_msg` on strings. -/
def strContainsSub (hay pat : String) : Bool := containsSub pat.toList hay.toList

/-! ## Driver model and identity resolution (`driver_matching.py`) -/

/-- Row of the `Driver` table; the fields touched by the resolver. -/
structure Driver where
  full_name : String
  first_name : String
  last_name : String
  driver_number : String
  abbreviation : String
  deriving DecidableEq, Repr

/-- The driver store: `Driver.objects` as a list in database order; `.first()`
on a filter is the first element in this order. Absent optional arguments
(`driver_number=None`, `abbreviation=None`) are modelled as `""`, which has
the same Python truthiness. -/
abbrev DriverStore := List Driver

/-- `find_driver_by_fastf1_data` from `driver_matching.py`.

Priority: exact_name → driver_number → abbreviation → normalized_name →
unique_last_name → (created_new | no_match). -/
def find_driver_by_fastf1_data (store : DriverStore) (full_name : String)
    (driver_number : String := "") (abbreviation : String := "")
    (create_if_missing : Bool := false) : Option Driver × String :=
  -- 1. Exact match (case-insensitive): filter(full_name__iexact=...).first()
  match store.find? (fun d => strLower d.full_name == strLower full_name) with
  | some d => (some d, "exact_name")
  | none =>
  -- 2. Driver number: if driver_number and filter(driver_number=...).first()
  match (if driver_number ≠ "" then
           store.find? (fun d => d.driver_number == driver_number)
         else none) with
  | some d => (some d, "driver_number")
  | none =>
  -- 3. Abbreviation: if abbreviation and filter(abbreviation__iexact=...).first()
  match (if abbreviation ≠ "" then
           store.find? (fun d => strLower d.abbreviation == strLower abbreviation)
         else none) with
  | some d => (some d, "abbreviation")
  | none =>
  -- 4. Normalized name: linear scan over Driver.objects.all()
  match store.find? (fun d => normalize_name d.full_name == normalize_name full_name) with
  | some d => (some d, "normalized_name")
  | none =>
  -- 5. Unique last name: only when full_name is truthy and contains a space;
  -- succeed iff filter(last_name__iexact=last).count() == 1
  -- `last_name = full_name.split()[-1]` is `lastTokenD full_name`
  match (if full_name ≠ "" && strContainsSpace full_name then
           match store.filter
               (fun d => strLower d.last_name == strLower (lastTokenD full_name)) with
           | [d] => some d
           | _ => none
         else none) with
  | some d => (some d, "unique_last_name")
  | none =>
  if create_if_missing then
    let parts := if strContainsSpace full_name then pySplit full_name
                 else [full_name, ""]
    let newD : Driver :=
      { full_name := full_name
        first_name := parts.headD ""
        last_name := String.intercalate " " parts.tail
        driver_number := driver_number
        abbreviation := abbreviation }
    (some newD, "created_new")
  else (none, "no_match")

/-- `update_driver_identifiers` from `driver_matching.py`, as a pure update on
the driver row: returns the saved row and the `updated` flag. The
name-variation branch only logs, so it has no effect on the row. -/
def update_driver_identifiers (driver : Driver) (driver_number : String := "")
    (abbreviation : String := "") (fastf1_name : String := "") : Driver × Bool :=
  let step1 : Driver × Bool :=
    if driver_number ≠ "" &&
        (driver.driver_number == "" || driver.driver_number != driver_number) then
      ({ driver with driver_number := driver_number }, true)
    else (driver, false)
  let d1 := step1.1
  let step2 : Driver × Bool :=
    if abbreviation ≠ "" &&
        (d1.abbreviation == "" || d1.abbreviation != abbreviation) then
      ({ d1 with abbreviation := abbreviation }, true)
    else (d1, false)
  -- `fastf1_name` branch: logger.info only, canonical name always kept
  let _ := normalize_name driver.full_name == normalize_name fastf1_name
  (step2.1, step1.2 || step2.2)

/-! ## Persisted store (`analytics/models`) and gap detection (`gap_detection.py`) -/

/-- Row of the `Season` table. -/
structure Season where
  id : Nat
  year : Nat
  deriving DecidableEq, Repr

/-- Row of the `Race` table; `event_format` is `"conventional"`, `"sprint"`
or `"testing"`. -/
structure Race where
  id : Nat
  seasonId : Nat
  round_number : Nat
  name : String
  event_format : String
  deriving DecidableEq, Repr

/-- Row of the `Session` table. -/
structure Session where
  id : Nat
  raceId : Nat
  session_number : Nat
  session_type : String
  deriving DecidableEq, Repr

/-- Row of the `SessionWeather` table (the payload columns are irrelevant to
gap detection, which only checks existence). -/
structure WeatherRow where
  id : Nat
  sessionId : Nat
  deriving DecidableEq, Repr

/-- The persisted store: each table as a list of rows in database order. -/
structure DB where
  seasons : List Season
  races : List Race
  sessions : List Session
  weather : List WeatherRow
  deriving DecidableEq, Repr

/-- `Season.objects.get(year=season_year)` under the unique-year constraint:
`none` models `Season.DoesNotExist`. -/
def seasonFind (db : DB) (y : Nat) : Option Season :=
  db.seasons.find? (fun s => s.year == y)

/-- Primary-key lookup `race` for a session's foreign key. -/
def raceById (db : DB) (rid : Nat) : Option Race :=
  db.races.find? (fun r => r.id == rid)

/-- Primary-key lookup of a race's season. -/
def seasonById (db : DB) (sid : Nat) : Option Season :=
  db.seasons.find? (fun s => s.id == sid)

/-- `Race.objects.filter(season=season).values_list('round_number')`. -/
def raceRoundsVal (db : DB) (sid : Nat) : List Nat :=
  (db.races.filter (fun r => r.seasonId == sid)).map (fun r => r.round_number)

/-- `Race.objects.filter(season=season)` rows. -/
def racesOfSeasonVal (db : DB) (sid : Nat) : List Race :=
  db.races.filter (fun r => r.seasonId == sid)

/-- `order_by('round_number')` comparison. -/
def raceOrd (r1 r2 : Race) : Prop := r1.round_number ≤ r2.round_number

instance : DecidableRel raceOrd := fun r1 r2 =>
  inferInstanceAs (Decidable (r1.round_number ≤ r2.round_number))

instance : IsTotal Race raceOrd := ⟨fun r1 r2 => Nat.le_total r1.round_number r2.round_number⟩

instance : IsTrans Race raceOrd := ⟨fun _ _ _ h1 h2 => Nat.le_trans h1 h2⟩

/-- `Session.objects.filter(race=race).values_list('session_number')`. -/
def sessionNumsVal (db : DB) (rid : Nat) : List Nat :=
  (db.sessions.filter (fun s => s.raceId == rid)).map (fun s => s.session_number)

/-- `Session.objects.filter(race__season=season).select_related('race')`:
each session joined with its race row, restricted to the given season. -/
def sessionRacePairsOfSeason (db : DB) (sid : Nat) : List (Session × Race) :=
  db.sessions.filterMap (fun s =>
    match raceById db s.raceId with
    | some r => if r.seasonId == sid then some (s, r) else none
    | none => none)

/-- `order_by('race__round_number', 'session_number')` comparison:
lexicographic on (race round, session number). -/
def sessOrd (p q : Session × Race) : Prop :=
  p.2.round_number < q.2.round_number ∨
    (p.2.round_number = q.2.round_number ∧ p.1.session_number ≤ q.1.session_number)

instance : DecidableRel sessOrd := fun p q =>
  inferInstanceAs (Decidable (p.2.round_number < q.2.round_number ∨
    (p.2.round_number = q.2.round_number ∧ p.1.session_number ≤ q.1.session_number)))

instance : IsTotal (Session × Race) sessOrd :=
  ⟨fun _ _ => by unfold sessOrd; omega⟩

instance : IsTrans (Session × Race) sessOrd :=
  ⟨fun _ _ _ h1 h2 => by unfold sessOrd at *; omega⟩

/-- `SessionWeather.objects.filter(session=session).exists()`. -/
def weatherHas (db : DB) (sessionId : Nat) : Bool :=
  db.weather.any (fun w => w.sessionId == sessionId)

/-! State-passing read primitives: every store access returns the store it
leaves behind, so mutation-freedom is visible in the embedding. -/

/-- Threaded `Season.objects.get(year=...)`. -/
def seasonGet (db : DB) (y : Nat) : DB × Option Season := (db, seasonFind db y)

/-- Threaded read of a season's race rounds. -/
def raceRoundsOf (db : DB) (sid : Nat) : DB × List Nat := (db, raceRoundsVal db sid)

/-- Threaded `Race.objects.filter(season=season).order_by('round_number')`. -/
def racesOfSeasonSorted (db : DB) (sid : Nat) : DB × List Race :=
  (db, List.insertionSort raceOrd (racesOfSeasonVal db sid))

/-- Threaded read of a race's session numbers. -/
def sessionNumsOf (db : DB) (rid : Nat) : DB × List Nat := (db, sessionNumsVal db rid)

/-- Threaded
`Session.objects.filter(race__season=season).select_related('race').order_by(
'race__round_number', 'session_number')`. -/
def sessionsOfSeasonSorted (db : DB) (sid : Nat) : DB × List (Session × Race) :=
  (db, List.insertionSort sessOrd (sessionRacePairsOfSeason db sid))

/-- Threaded `SessionWeather.objects.filter(session=session).exists()`. -/
def weatherExists (db : DB) (sessionId : Nat) : DB × Bool := (db, weatherHas db sessionId)

/-- The `SessionGap` dataclass from `gap_detection.py`. -/
structure SessionGap where
  session_id : Option Nat
  year : Nat
  round_number : Nat
  session_type : String
  session_number : Nat
  event_name : Option String := none
  missing_weather : Bool := false
  deriving DecidableEq, Repr

/-- The `SessionGap` built for one (session, race) pair, both in
`detect_session_data_gaps` and in the force branch of
`get_sessions_to_process` (the two constructions are field-for-field
identical). -/
def mkGap (y : Nat) (sr : Session × Race) : SessionGap :=
  { session_id := some sr.1.id
    year := y
    round_number := sr.2.round_number
    session_type := sr.1.session_type
    session_number := sr.1.session_number
    event_name := if sr.2.event_format == "testing" then some sr.2.name else none
    missing_weather := true }

/-- The `GapReport` dataclass. -/
structure GapReport where
  season_year : Nat
  missing_races : List Nat
  missing_sessions : List (Nat × Nat)
  session_gaps : List SessionGap
  total_api_calls_needed : Nat
  deriving DecidableEq, Repr

/-- `GapReport.has_gaps`. -/
def GapReport.has_gaps (r : GapReport) : Bool :=
  decide (0 < r.missing_races.length) ||
    decide (0 < r.missing_sessions.length) ||
    decide (0 < r.session_gaps.length)

/-- `detect_missing_races` from `gap_detection.py`. An `expected_rounds`
of `none` — and, by Python truthiness, also `some 0` — takes the branch that
returns the empty list. -/
def detect_missing_races (db : DB) (y : Nat) (expected_rounds : Option Nat) :
    DB × List Nat :=
  match seasonGet db y with
  | (db1, none) => (db1, [])
  | (db1, some season) =>
      let res := raceRoundsOf db1 season.id
      let db2 := res.1
      let existingRounds := res.2
      match expected_rounds with
      | some n =>
          if n == 0 then (db2, [])
          else (db2, (List.range' 1 n).filter (fun r => !(existingRounds.contains r)))
      | none => (db2, [])

/-- Loop body of `detect_missing_sessions`: read the race's existing session
numbers from the store and append the `(round, slot)` pairs for the expected
slots `{1..5}` that are absent. -/
def missingSessionsStep (acc : DB × List (Nat × Nat)) (race : Race) :
    DB × List (Nat × Nat) :=
  let nums := sessionNumsOf acc.1 race.id
  let missingForRace := [1, 2, 3, 4, 5].filter (fun n => !(nums.2.contains n))
  (nums.1, acc.2 ++ missingForRace.map (fun n => (race.round_number, n)))

/-- `detect_missing_sessions` from `gap_detection.py`: for every race of the
season (in round order) the expected session slots `{1..5}` minus the
existing ones, reported as `(round, slot)` pairs. -/
def detect_missing_sessions (db : DB) (y : Nat) : DB × List (Nat × Nat) :=
  match seasonGet db y with
  | (db1, none) => (db1, [])
  | (db1, some season) =>
      let res := racesOfSeasonSorted db1 season.id
      res.2.foldl missingSessionsStep (res.1, [])

/-- Loop body of `detect_session_data_gaps`: check the session's weather row
in the store and append a gap when it is absent. -/
def sessionGapStep (y : Nat) (acc : DB × List SessionGap) (sr : Session × Race) :
    DB × List SessionGap :=
  let hw := weatherExists acc.1 sr.1.id
  if hw.2 then (hw.1, acc.2) else (hw.1, acc.2 ++ [mkGap y sr])

/-- `detect_session_data_gaps` from `gap_detection.py`: every session of the
season (ordered by round then session number) that has no weather row
becomes a `SessionGap` with `missing_weather := true`. -/
def detect_session_data_gaps (db : DB) (y : Nat) : DB × List SessionGap :=
  match seasonGet db y with
  | (db1, none) => (db1, [])
  | (db1, some season) =>
      let res := sessionsOfSeasonSorted db1 season.id
      res.2.foldl (sessionGapStep y) (res.1, [])

/-- `generate_gap_report` from `gap_detection.py`: runs the three detectors
and assembles the report; the API-call estimate is the number of session
gaps. -/
def generate_gap_report (db : DB) (y : Nat) (expected_rounds : Option Nat := none) :
    DB × GapReport :=
  let mr := detect_missing_races db y expected_rounds
  let ms := detect_missing_sessions mr.1 y
  let sg := detect_session_data_gaps ms.1 y
  (sg.1,
   { season_year := y
     missing_races := mr.2
     missing_sessions := ms.2
     session_gaps := sg.2
     total_api_calls_needed := sg.2.length })

/-! ## Session planner (`session_processor.py`) -/

/-- `Session.objects.filter(race__season__year=year)` joined with the race
row: the force-mode query joins through the season's year. -/
def yearJoin (db : DB) (y : Nat) : List (Session × Race) :=
  db.sessions.filterMap (fun s =>
    match raceById db s.raceId with
    | some r =>
        match seasonById db r.seasonId with
        | some se => if se.year == y then some (s, r) else none
        | none => none
    | none => none)

/-- Threaded force-mode session query of `get_sessions_to_process`:
year filter, optional round filter (skipped for a falsy round number, i.e.
`none` or `some 0`), ordered by `('race__round_number', 'session_number')`. -/
def forcedSessionsQuery (db : DB) (y : Nat) (rnd : Option Nat) :
    DB × List (Session × Race) :=
  let base := yearJoin db y
  let filtered :=
    match rnd with
    | some r => if r == 0 then base else base.filter (fun sr => sr.2.round_number == r)
    | none => base
  (db, List.insertionSort sessOrd filtered)

/-- `get_sessions_to_process` from `session_processor.py`.

Step 1: gap detection. Step 2: optional round filter (skipped when the
Python `round_number` is falsy). Step 3: in force mode, every session
matching the year/round filter that is not already covered by a gap is
appended as a synthetic gap with `missing_weather := true`, de-duplicated by
session id against the base gap list. -/
def get_sessions_to_process (db : DB) (y : Nat) (rnd : Option Nat) (force : Bool) :
    DB × List SessionGap :=
  let rep := generate_gap_report db y none
  let gaps0 := rep.2.session_gaps
  let gaps1 :=
    match rnd with
    | some r => if r == 0 then gaps0 else gaps0.filter (fun g => g.round_number == r)
    | none => gaps0
  if force then
    let q := forcedSessionsQuery rep.1 y rnd
    let existingIds := gaps1.map (fun g => g.session_id)
    let additions :=
      (q.2.filter (fun sr => !(existingIds.contains (some sr.1.id)))).map (mkGap y)
    (q.1, gaps1 ++ additions)
  else (rep.1, gaps1)

/-! ## Loader failure classification (`loaders.py`) -/

/-- Outcome of the provider call `fastf1.get_session(...)` + `load()`:
either it returns, or it raises the provider's distinct rate-limit error, or
it raises some other exception with a message. -/
inductive ProviderOutcome where
  | success
  | rateLimited (msg : String)
  | failure (msg : String)
  deriving DecidableEq, Repr

/-- How `load_fastf1_session` terminates: a loaded session, the re-raised
rate-limit error, the distinct `NonRetryableError`, or the original
exception re-raised for the caller's bounded retry. -/
inductive LoadResult where
  | loaded
  | rateLimitRaised (msg : String)
  | nonRetryableRaised (msg : String)
  | otherRaised (msg : String)
  deriving DecidableEq, Repr

/-- The `non_retryable_keywords` list from `load_fastf1_session`. -/
def nonRetryableKeywords : List String :=
  ["not found", "does not exist", "no data available", "invalid round", "invalid event"]

/-- The failure classification of `load_fastf1_session` (`loaders.py`):
the provider's rate-limit error is re-raised unchanged; any other exception
whose lowercased message contains a non-retryable keyword becomes
`NonRetryableError`; every other exception is re-raised as-is. -/
def load_fastf1_session (outcome : ProviderOutcome) : LoadResult :=
  match outcome with
  | .success => .loaded
  | .rateLimited m => .rateLimitRaised m
  | .failure m =>
      if nonRetryableKeywords.any (fun k => strContainsSub (strLower m) k) then
        .nonRetryableRaised m
      else
        .otherRaised m

/-! ## Orchestrator step and run tally (`import_fastf1.py`) -/

/-- Outcome of one category's extraction + save inside
`process_session_gap`: the extractor returned data and the save succeeded,
the extractor returned falsy data, the save returned a non-success status,
or an exception was thrown (and caught by the per-category handler). -/
inductive ExtractOutcome where
  | ok
  | noData
  | saveFailed
  | exn
  deriving DecidableEq, Repr

/-- Environment for one `process_session_gap` call: what the loader and each
category extraction would do for this session. `loadError = some e` models
`load_fastf1_session` raising with message `e`. -/
structure SessionEnv where
  loadError : Option String
  drivers : ExtractOutcome
  weather : ExtractOutcome
  circuit : ExtractOutcome
  telemetry : ExtractOutcome
  deriving DecidableEq, Repr

/-- The result dict built by `process_session_gap`, plus an instrumentation
field `trace` recording which external steps were attempted (the loader and
each category extraction), in order. -/
structure GapResult where
  session_id : Option Nat
  year : Nat
  round : Nat
  session_type : String
  extracted : List String
  failed : List String
  status : String
  reason : Option String
  error : Option String
  trace : List String
  deriving DecidableEq, Repr

/-- What one category step contributes to (`extracted`, `failed`):
* drivers — data + success save → extracted; falsy data → nothing;
  failed save or exception → failed;
* weather — like drivers except falsy data also counts as failed;
* circuit — like drivers (falsy data explicitly "not a failure");
* telemetry — like weather. -/
def categoryStep (looseNoData : Bool) (name : String) (o : ExtractOutcome)
    (acc : List String × List String) : List String × List String :=
  match o with
  | .ok => (acc.1 ++ [name], acc.2)
  | .noData => if looseNoData then acc else (acc.1, acc.2 ++ [name])
  | .saveFailed => (acc.1, acc.2 ++ [name])
  | .exn => (acc.1, acc.2 ++ [name])

/-- `process_session_gap` from `import_fastf1.py`.

A gap with no session id is skipped (`session_not_created`) before any
external call. Otherwise the session is loaded once; a loader exception
marks the whole session `failed`; otherwise each category is attempted in
order (drivers, weather, circuit, telemetry), per-category failures are
recorded and do not stop later categories, and the final status is
`partial` iff any category failed, else `success`. -/
def process_session_gap (gap : SessionGap) (env : SessionEnv) : GapResult :=
  let base : GapResult :=
    { session_id := gap.session_id
      year := gap.year
      round := gap.round_number
      session_type := gap.session_type
      extracted := []
      failed := []
      status := "success"
      reason := none
      error := none
      trace := [] }
  match gap.session_id with
  | none => { base with status := "skipped", reason := some "session_not_created" }
  | some _ =>
      match env.loadError with
      | some e => { base with status := "failed", error := some e, trace := ["load"] }
      | none =>
          let acc0 : List String × List String := ([], [])
          let acc1 := categoryStep true "drivers" env.drivers acc0
          let acc2 := categoryStep false "weather" env.weather acc1
          let acc3 := categoryStep true "circuit" env.circuit acc2
          let acc4 := categoryStep false "telemetry" env.telemetry acc3
          { base with
              extracted := acc4.1
              failed := acc4.2
              status := if acc4.2 ≠ [] then "partial" else "success"
              trace := ["load", "drivers", "weather", "circuit", "telemetry"] }

/-- The per-run accumulator of `import_fastf1_flow`. -/
structure RunSummary where
  sessions_processed : Nat
  sessions_succeeded : Nat
  sessions_failed : Nat
  weather_count : Nat
  circuit_count : Nat
  telemetry_count : Nat
  deriving DecidableEq, Repr

/-- One iteration of the session loop in `import_fastf1_flow`: a `success`
result counts as succeeded and bumps the per-category extraction counters;
a `partial` result counts as succeeded; anything else counts as failed. -/
def tallyResult (s : RunSummary) (r : GapResult) : RunSummary :=
  let s := { s with sessions_processed := s.sessions_processed + 1 }
  if r.status == "success" then
    { s with
        sessions_succeeded := s.sessions_succeeded + 1
        weather_count := s.weather_count + r.extracted.count "weather"
        circuit_count := s.circuit_count + r.extracted.count "circuit"
        telemetry_count := s.telemetry_count + r.extracted.count "telemetry" }
  else if r.status == "partial" then
    { s with sessions_succeeded := s.sessions_succeeded + 1 }
  else
    { s with sessions_failed := s.sessions_failed + 1 }

/-! ## Pure characterizations of the state-passing operations -/

/-- Value computed by `detect_missing_races`. -/
def missingRacesOf (db : DB) (y : Nat) (er : Option Nat) : List Nat :=
  match seasonFind db y with
  | none => []
  | some season =>
      match er with
      | some n =>
          if n == 0 then []
          else (List.range' 1 n).filter (fun r => !((raceRoundsVal db season.id).contains r))
      | none => []

/-- Value computed by `detect_missing_sessions`. -/
def missingSessionsOf (db : DB) (y : Nat) : List (Nat × Nat) :=
  match seasonFind db y with
  | none => []
  | some season =>
      (List.insertionSort raceOrd (racesOfSeasonVal db season.id)).flatMap
        (fun race =>
          ([1, 2, 3, 4, 5].filter (fun n => !((sessionNumsVal db race.id).contains n))).map
            (fun n => (race.round_number, n)))

/-- Value computed by `detect_session_data_gaps`. -/
def sessionGapsOf (db : DB) (y : Nat) : List SessionGap :=
  match seasonFind db y with
  | none => []
  | some season =>
      ((List.insertionSort sessOrd (sessionRacePairsOfSeason db season.id)).filter
        (fun sr => !(weatherHas db sr.1.id))).map (mkGap y)

/-- Value computed by `generate_gap_report`. -/
def gapReportOf (db : DB) (y : Nat) (er : Option Nat) : GapReport :=
  { season_year := y
    missing_races := missingRacesOf db y er
    missing_sessions := missingSessionsOf db y
    session_gaps := sessionGapsOf db y
    total_api_calls_needed := (sessionGapsOf db y).length }

/-- Value computed by `get_sessions_to_process`. -/
def plannerGapsOf (db : DB) (y : Nat) (rnd : Option Nat) (force : Bool) :
    List SessionGap :=
  let gaps0 := sessionGapsOf db y
  let gaps1 :=
    match rnd with
    | some r => if r == 0 then gaps0 else gaps0.filter (fun g => g.round_number == r)
    | none => gaps0
  if force then
    let existingIds := gaps1.map (fun g => g.session_id)
    gaps1 ++
      ((forcedSessionsQuery db y rnd).2.filter
        (fun sr => !(existingIds.contains (some sr.1.id)))).map (mkGap y)
  else gaps1

theorem detect_missing_races_eq (db : DB) (y : Nat) (er : Option Nat) :
    detect_missing_races db y er = (db, missingRacesOf db y er) := by
  unfold detect_missing_races missingRacesOf seasonGet raceRoundsOf
  cases seasonFind db y <;> cases er <;>
    simp [apply_ite (fun l => ((db, l) : DB × List Nat))]

theorem missingSessionsStep_foldl (db : DB) (races : List Race) (acc : List (Nat × Nat)) :
    races.foldl missingSessionsStep (db, acc) =
      (db, acc ++ races.flatMap
        (fun race =>
          ([1, 2, 3, 4, 5].filter (fun n => !((sessionNumsVal db race.id).contains n))).map
            (fun n => (race.round_number, n)))) := by
  induction races generalizing acc with
  | nil => simp
  | cons race rest ih =>
      simp only [List.foldl_cons, missingSessionsStep, sessionNumsOf, List.flatMap_cons, ih,
        List.append_assoc]

theorem detect_missing_sessions_eq (db : DB) (y : Nat) :
    detect_missing_sessions db y = (db, missingSessionsOf db y) := by
  unfold detect_missing_sessions missingSessionsOf seasonGet racesOfSeasonSorted
  cases seasonFind db y <;> simp [missingSessionsStep_foldl]

theorem sessionGapStep_foldl (y : Nat) (db : DB) (pairs : List (Session × Race))
    (acc : List SessionGap) :
    pairs.foldl (sessionGapStep y) (db, acc) =
      (db, acc ++ (pairs.filter (fun sr => !(weatherHas db sr.1.id))).map (mkGap y)) := by
  induction pairs generalizing acc with
  | nil => simp
  | cons sr rest ih =>
      by_cases hw : weatherHas db sr.1.id <;>
        simp [sessionGapStep, weatherExists, hw, ih, List.filter_cons]

theorem detect_session_data_gaps_eq (db : DB) (y : Nat) :
    detect_session_data_gaps db y = (db, sessionGapsOf db y) := by
  unfold detect_session_data_gaps sessionGapsOf seasonGet sessionsOfSeasonSorted
  cases seasonFind db y <;> simp [sessionGapStep_foldl]

theorem generate_gap_report_eq (db : DB) (y : Nat) (er : Option Nat) :
    generate_gap_report db y er = (db, gapReportOf db y er) := by
  unfold generate_gap_report gapReportOf
  rw [detect_missing_races_eq]
  simp only [detect_missing_sessions_eq, detect_session_data_gaps_eq]

theorem get_sessions_to_process_eq (db : DB) (y : Nat) (rnd : Option Nat) (force : Bool) :
    get_sessions_to_process db y rnd force = (db, plannerGapsOf db y rnd force) := by
  unfold get_sessions_to_process plannerGapsOf
  rw [generate_gap_report_eq]
  cases force <;> cases rnd <;> simp [forcedSessionsQuery, gapReportOf]

/-! ## Claim theorems -/

/-- C7: gap detection is read-only — for every store and season year,
`detect_missing_races`, `detect_missing_sessions`, `detect_session_data_gaps`
and `generate_gap_report` leave every persisted table exactly as it was. -/
theorem gap_detection_read_only (db : DB) (y : Nat) (er : Option Nat) :
    (detect_missing_races db y er).1 = db ∧
    (detect_missing_sessions db y).1 = db ∧
    (detect_session_data_gaps db y).1 = db ∧
    (generate_gap_report db y er).1 = db := by
  simp [detect_missing_races_eq, detect_missing_sessions_eq, detect_session_data_gaps_eq,
    generate_gap_report_eq]

/-- C10: for a year with no persisted `Season`, the three detectors return
empty lists and `generate_gap_report` returns a report with empty
`missing_races`, `missing_sessions` and `session_gaps`,
`total_api_calls_needed = 0` and `has_gaps = false`. -/
theorem gap_detection_missing_season (db : DB) (y : Nat) (er : Option Nat)
    (h : ∀ s ∈ db.seasons, s.year ≠ y) :
    (detect_missing_races db y er).2 = [] ∧
    (detect_missing_sessions db y).2 = [] ∧
    (detect_session_data_gaps db y).2 = [] ∧
    (generate_gap_report db y er).2 =
      { season_year := y, missing_races := [], missing_sessions := [],
        session_gaps := [], total_api_calls_needed := 0 } ∧
    ((generate_gap_report db y er).2).has_gaps = false := by
  have hf : seasonFind db y = none := by
    apply List.find?_eq_none.mpr
    intro s hs
    simpa using h s hs
  simp [detect_missing_races_eq, detect_missing_sessions_eq, detect_session_data_gaps_eq,
    generate_gap_report_eq, missingRacesOf, missingSessionsOf, sessionGapsOf, gapReportOf,
    GapReport.has_gaps, hf]

/-- Store for the C10 witness: one season, but not the queried year. -/
def noSeasonDB : DB :=
  { seasons := [{ id := 1, year := 2023 }], races := [], sessions := [], weather := [] }

/-- C10 witness: the concrete store `noSeasonDB` has no 2024 season and the
2024 gap report is empty. -/
theorem gap_detection_missing_season_witness :
    (∀ s ∈ noSeasonDB.seasons, s.year ≠ 2024) ∧
    ((generate_gap_report noSeasonDB 2024 none).2).has_gaps = false :=
  ⟨by decide, (gap_detection_missing_season noSeasonDB 2024 none (by decide)).2.2.2.2⟩

/-- C8: `update_driver_identifiers` never changes the canonical full name;
the numeric id and the short code are overwritten exactly when a non-empty
value is supplied that differs from the stored one (including when the
stored one is empty), and the returned flag is true iff at least one of the
two was changed. -/
theorem update_driver_identifiers_spec (driver : Driver) (n a f : String) :
    (update_driver_identifiers driver n a f).1.full_name = driver.full_name ∧
    (update_driver_identifiers driver n a f).1.driver_number =
      (if n ≠ "" ∧ driver.driver_number ≠ n then n else driver.driver_number) ∧
    (update_driver_identifiers driver n a f).1.abbreviation =
      (if a ≠ "" ∧ driver.abbreviation ≠ a then a else driver.abbreviation) ∧
    ((update_driver_identifiers driver n a f).2 = true ↔
      ((n ≠ "" ∧ driver.driver_number ≠ n) ∨ (a ≠ "" ∧ driver.abbreviation ≠ a))) := by
  unfold update_driver_identifiers
  by_cases hn : n = "" <;> by_cases ha : a = "" <;>
    by_cases hdn : driver.driver_number = n <;> by_cases hda : driver.abbreviation = a <;>
    simp [hn, ha, hdn, hda]

/-- The non-retryable keyword list as the claim (and spec) states it: it
omits the code's additional keyword `"does not exist"`. -/
def claimedNonRetryableKeywords : List String :=
  ["not found", "no data available", "invalid round", "invalid event"]

/-- C6 counterexample: the exception message `"session does not exist"`
contains none of the four keywords named by the claim, so the claim requires
it to be re-raised as-is; the code classifies it as `NonRetryableError`
because of the fifth keyword `"does not exist"` in `loaders.py`. -/
theorem load_classification_counterexample :
    (claimedNonRetryableKeywords.any
      (fun k => strContainsSub (strLower "session does not exist") k)) = false ∧
    load_fastf1_session (ProviderOutcome.failure "session does not exist") =
      LoadResult.nonRetryableRaised "session does not exist" := by
  decide

/-- C6 (amended): the loader re-raises the provider's rate-limit error
unchanged, raises the distinct `NonRetryableError` exactly when the
lowercased message contains one of the five keywords
`"not found"`, `"does not exist"`, `"no data available"`, `"invalid round"`,
`"invalid event"`, and re-raises every other exception as-is for the
caller's bounded retry. -/
theorem load_classification (m : String) :
    load_fastf1_session (ProviderOutcome.rateLimited m) = LoadResult.rateLimitRaised m ∧
    load_fastf1_session ProviderOutcome.success = LoadResult.loaded ∧
    (load_fastf1_session (ProviderOutcome.failure m) = LoadResult.nonRetryableRaised m ↔
      ∃ k ∈ nonRetryableKeywords, strContainsSub (strLower m) k = true) ∧
    (load_fastf1_session (ProviderOutcome.failure m) = LoadResult.otherRaised m ↔
      ∀ k ∈ nonRetryableKeywords, strContainsSub (strLower m) k = false) := by
  refine ⟨rfl, rfl, ?_, ?_⟩ <;>
      simp only [load_fastf1_session] <;>
      by_cases h : (nonRetryableKeywords.any (fun k => strContainsSub (strLower m) k)) = true
  · rw [if_pos h]
    exact ⟨fun _ => List.any_eq_true.mp h, fun _ => rfl⟩
  · rw [if_neg h]
    refine ⟨fun hcon => absurd hcon (by simp), fun hex => absurd (List.any_eq_true.mpr hex) h⟩
  · rw [if_pos h]
    obtain ⟨k, hk, hp⟩ := List.any_eq_true.mp h
    refine ⟨fun hcon => absurd hcon (by simp), fun hall => ?_⟩
    rw [hall k hk] at hp
    cases hp
  · rw [if_neg h]
    have hf : (nonRetryableKeywords.any (fun k => strContainsSub (strLower m) k)) = false := by
      simpa using h
    have hall := List.any_eq_false.mp hf
    exact ⟨fun _ k hk => by simpa using hall k hk, fun _ => rfl⟩

/-- C9: a `SessionGap` whose `session_id` is absent makes
`process_session_gap` return a `skipped` result with reason
`session_not_created`, with no loader or extractor call attempted (empty
trace) and nothing extracted or failed, for every environment; the run loop
then tallies it in the failed counter, not the succeeded one. -/
theorem skipped_gap_result (gap : SessionGap) (env : SessionEnv) (s : RunSummary)
    (h : gap.session_id = none) :
    (process_session_gap gap env).status = "skipped" ∧
    (process_session_gap gap env).reason = some "session_not_created" ∧
    (process_session_gap gap env).extracted = [] ∧
    (process_session_gap gap env).failed = [] ∧
    (process_session_gap gap env).trace = [] ∧
    tallyResult s (process_session_gap gap env) =
      { s with sessions_processed := s.sessions_processed + 1,
               sessions_failed := s.sessions_failed + 1 } := by
  have hr : process_session_gap gap env =
      { session_id := gap.session_id, year := gap.year, round := gap.round_number,
        session_type := gap.session_type, extracted := [], failed := [],
        status := "skipped", reason := some "session_not_created", error := none,
        trace := [] } := by
    unfold process_session_gap
    rw [h]
  rw [hr]
  refine ⟨rfl, rfl, rfl, rfl, rfl, ?_⟩
  unfold tallyResult
  simp

/-- Environment for the C9 witness. -/
def c9env : SessionEnv :=
  { loadError := none, drivers := .ok, weather := .ok, circuit := .ok, telemetry := .ok }

/-- Gap for the C9 witness: the session row was never created. -/
def c9gap : SessionGap :=
  { session_id := none, year := 2024, round_number := 3, session_type := "Race",
    session_number := 5, event_name := none, missing_weather := true }

/-- Summary accumulator for the C9 and C5 witnesses. -/
def zeroSummary : RunSummary :=
  { sessions_processed := 0, sessions_succeeded := 0, sessions_failed := 0,
    weather_count := 0, circuit_count := 0, telemetry_count := 0 }

/-- C9 witness at a concrete gap, environment and summary. -/
theorem skipped_gap_result_witness :
    c9gap.session_id = none ∧
    (process_session_gap c9gap c9env).status = "skipped" ∧
    tallyResult zeroSummary (process_session_gap c9gap c9env) =
      { zeroSummary with
          sessions_processed := zeroSummary.sessions_processed + 1,
          sessions_failed := zeroSummary.sessions_failed + 1 } :=
  ⟨rfl, (skipped_gap_result c9gap c9env zeroSummary rfl).1,
    (skipped_gap_result c9gap c9env zeroSummary rfl).2.2.2.2.2⟩

/-- C5: with the session row present and the load successful, a weather
extraction that throws is recorded in the session's failed list while the
remaining categories (circuit, telemetry) are still attempted; with circuit
succeeding the session's final status is `partial`, and the run loop counts
the session exactly once, in the succeeded counter, never in the failed
one — whatever the drivers and telemetry steps do. -/
theorem partial_failure_isolation (gap : SessionGap) (env : SessionEnv) (s : RunSummary)
    (hsid : gap.session_id ≠ none)
    (hload : env.loadError = none)
    (hw : env.weather = ExtractOutcome.exn)
    (hc : env.circuit = ExtractOutcome.ok) :
    "weather" ∈ (process_session_gap gap env).failed ∧
    "circuit" ∈ (process_session_gap gap env).extracted ∧
    (process_session_gap gap env).trace =
      ["load", "drivers", "weather", "circuit", "telemetry"] ∧
    (process_session_gap gap env).status = "partial" ∧
    tallyResult s (process_session_gap gap env) =
      { s with sessions_processed := s.sessions_processed + 1,
               sessions_succeeded := s.sessions_succeeded + 1 } := by
  obtain ⟨i, hi⟩ := Option.ne_none_iff_exists'.mp hsid
  unfold process_session_gap
  rw [hi, hload, hw, hc]
  cases hd : env.drivers <;> cases ht : env.telemetry <;>
    simp [categoryStep, tallyResult]

/-- Environment for the C5 witness: weather throws, everything else works. -/
def c5env : SessionEnv :=
  { loadError := none, drivers := .ok, weather := .exn, circuit := .ok, telemetry := .ok }

/-- Gap for the C5 witness. -/
def c5gap : SessionGap :=
  { session_id := some 42, year := 2024, round_number := 3, session_type := "Race",
    session_number := 5, event_name := none, missing_weather := true }

/-- C5 witness at a concrete gap, environment and summary. -/
theorem partial_failure_isolation_witness :
    c5gap.session_id ≠ none ∧ c5env.weather = ExtractOutcome.exn ∧
    c5env.circuit = ExtractOutcome.ok ∧
    (process_session_gap c5gap c5env).status = "partial" ∧
    tallyResult zeroSummary (process_session_gap c5gap c5env) =
      { zeroSummary with
          sessions_processed := zeroSummary.sessions_processed + 1,
          sessions_succeeded := zeroSummary.sessions_succeeded + 1 } :=
  ⟨by simp [c5gap], rfl, rfl,
    (partial_failure_isolation c5gap c5env zeroSummary (by simp [c5gap]) rfl rfl rfl).2.2.2.1,
    (partial_failure_isolation c5gap c5env zeroSummary (by simp [c5gap]) rfl rfl rfl).2.2.2.2⟩

/-- C1: identity resolution precedence — whenever the store contains a
(unique) competitor whose full name equals the reported name
case-insensitively, `find_driver_by_fastf1_data` returns that competitor
with match method `"exact_name"`, regardless of the reported numeric id,
short code, or the auto-create flag. -/
theorem exact_name_precedence (store : DriverStore) (full_name num abbr : String)
    (cif : Bool) (d0 : Driver) (hmem : d0 ∈ store)
    (hmatch : strLower d0.full_name = strLower full_name)
    (huniq : ∀ d ∈ store, strLower d.full_name = strLower full_name → d = d0) :
    find_driver_by_fastf1_data store full_name num abbr cif = (some d0, "exact_name") := by
  have hsome : (store.find? (fun d => strLower d.full_name == strLower full_name)).isSome := by
    rw [List.find?_isSome]
    exact ⟨d0, hmem, by simp [hmatch]⟩
  obtain ⟨d, hd⟩ := Option.isSome_iff_exists.mp hsome
  have hpd : strLower d.full_name = strLower full_name := by
    have := List.find?_some hd
    simpa using this
  have hdd : d = d0 := huniq d (List.mem_of_find?_eq_some hd) hpd
  unfold find_driver_by_fastf1_data
  rw [hd, hdd]

/-- Stored competitor for the C1 witness, with empty identifier fields. -/
def maxVerstappen : Driver :=
  { full_name := "Max Verstappen", first_name := "Max", last_name := "Verstappen",
    driver_number := "", abbreviation := "" }

/-- Store for the C1 witness. -/
def c1store : DriverStore := [maxVerstappen]

/-- C1 witness: a report of (full_name "Max Verstappen", id "1", code "VER")
resolves by exact name, not by id or code. -/
theorem exact_name_precedence_witness :
    maxVerstappen ∈ c1store ∧
    find_driver_by_fastf1_data c1store "Max Verstappen" "1" "VER" false =
      (some maxVerstappen, "exact_name") :=
  ⟨by decide,
    exact_name_precedence c1store "Max Verstappen" "1" "VER" false maxVerstappen
      (by decide) (by decide) (by decide)⟩

/-- C2: ambiguous surname is no-match — when the reported name contains a
space, no earlier strategy (exact name, numeric id, short code, normalized
name) matches, and at least two stored competitors share the reported
surname case-insensitively, `find_driver_by_fastf1_data` with auto-create
disabled returns `(none, "no_match")`. -/
theorem ambiguous_surname_no_match (store : DriverStore) (full_name num abbr : String)
    (hsp : strContainsSpace full_name = true)
    (hexact : ∀ d ∈ store, strLower d.full_name ≠ strLower full_name)
    (hnum : num = "" ∨ ∀ d ∈ store, d.driver_number ≠ num)
    (habbr : abbr = "" ∨ ∀ d ∈ store, strLower d.abbreviation ≠ strLower abbr)
    (hnorm : ∀ d ∈ store, normalize_name d.full_name ≠ normalize_name full_name)
    (hamb : 2 ≤ (store.filter
      (fun d => strLower d.last_name == strLower (lastTokenD full_name))).length) :
    find_driver_by_fastf1_data store full_name num abbr false = (none, "no_match") := by
  have hne : full_name ≠ "" := by
    intro he
    rw [he] at hsp
    exact absurd hsp (by decide)
  have h1 : store.find? (fun d => strLower d.full_name == strLower full_name) = none :=
    List.find?_eq_none.mpr (fun d hd => by simp [hexact d hd])
  have h2 : (if num ≠ "" then store.find? (fun d => d.driver_number == num) else none)
      = none := by
    rcases hnum with hn | hn
    · simp [hn]
    · split
      · exact List.find?_eq_none.mpr (fun d hd => by simp [hn d hd])
      · rfl
  have h3 : (if abbr ≠ "" then
        store.find? (fun d => strLower d.abbreviation == strLower abbr) else none)
      = none := by
    rcases habbr with hn | hn
    · simp [hn]
    · split
      · exact List.find?_eq_none.mpr (fun d hd => by simp [hn d hd])
      · rfl
  have h4 : store.find?
      (fun d => normalize_name d.full_name == normalize_name full_name) = none :=
    List.find?_eq_none.mpr (fun d hd => by simp [hnorm d hd])
  unfold find_driver_by_fastf1_data
  rw [h1, h2, h3, h4]
  rcases hfl : store.filter
      (fun d => strLower d.last_name == strLower (lastTokenD full_name)) with _ | ⟨a, _ | ⟨b, t⟩⟩
  · rw [hfl] at hamb
    simp at hamb
  · rw [hfl] at hamb
    simp at hamb
  · simp [hne, hsp, hfl]

/-- Store for the C2 witness: two competitors sharing the surname Smith. -/
def c2store : DriverStore :=
  [{ full_name := "John Smith", first_name := "John", last_name := "Smith",
     driver_number := "10", abbreviation := "JSM" },
   { full_name := "Jane Smith", first_name := "Jane", last_name := "Smith",
     driver_number := "11", abbreviation := "JAS" }]

/-- C2 witness: report "J. Smith" with no id/code against two stored Smiths
resolves to no-match. -/
theorem ambiguous_surname_no_match_witness :
    2 ≤ (c2store.filter
      (fun d => strLower d.last_name == strLower (lastTokenD "J. Smith"))).length ∧
    find_driver_by_fastf1_data c2store "J. Smith" "" "" false = (none, "no_match") :=
  ⟨by decide,
    ambiguous_surname_no_match c2store "J. Smith" "" "" (by decide) (by decide)
      (Or.inl rfl) (Or.inl rfl) (by decide) (by decide)⟩

/-- Order asserted by C4 on the planner's output: by round number, then by
session number. -/
def gapOrdered (g1 g2 : SessionGap) : Prop :=
  g1.round_number < g2.round_number ∨
    (g1.round_number = g2.round_number ∧ g1.session_number ≤ g2.session_number)

instance : DecidableRel gapOrdered := fun g1 g2 =>
  inferInstanceAs (Decidable (g1.round_number < g2.round_number ∨
    (g1.round_number = g2.round_number ∧ g1.session_number ≤ g2.session_number)))

/-- Store for the C4 counterexample: one 2024 race with two sessions, where
only session number 1 already has weather data. -/
def c4db : DB :=
  { seasons := [{ id := 1, year := 2024 }]
    races := [{ id := 10, seasonId := 1, round_number := 1, name := "Test GP",
                event_format := "conventional" }]
    sessions := [{ id := 100, raceId := 10, session_number := 1,
                   session_type := "Practice 1" },
                 { id := 101, raceId := 10, session_number := 2,
                   session_type := "Practice 2" }]
    weather := [{ id := 1000, sessionId := 100 }] }

/-- C4 counterexample: with `force = True` the planner appends the forced
re-check sessions after the base gap list, so on `c4db` the output carries
(round, session-number) keys `[(1, 2), (1, 1)]` — not sorted by round then
session number. -/
theorem planner_force_unsorted_counterexample :
    ((get_sessions_to_process c4db 2024 none true).2.map
        (fun g => (g.round_number, g.session_number)) = [(1, 2), (1, 1)]) ∧
    ¬ List.Pairwise gapOrdered (get_sessions_to_process c4db 2024 none true).2 := by
  decide

/-- C4 (amended): without force mode, the planner's output is sorted by
round number and then by session number, for every store, year and round
filter (the planner itself is a pure function of the store, so repeated runs
over the same persisted state return the same list); with force mode, the
synthetic re-check gaps are appended after the base gap list, so the
combined list need not be globally sorted. -/
theorem planner_gaps_sorted (db : DB) (y : Nat) (rnd : Option Nat) :
    List.Pairwise gapOrdered (get_sessions_to_process db y rnd false).2 := by
  rw [get_sessions_to_process_eq]
  show List.Pairwise gapOrdered (plannerGapsOf db y rnd false)
  have hbase : List.Pairwise gapOrdered (sessionGapsOf db y) := by
    unfold sessionGapsOf
    cases seasonFind db y with
    | none => simp
    | some season =>
        have hs := List.sorted_insertionSort sessOrd (sessionRacePairsOfSeason db season.id)
        exact (hs.filter _).map (mkGap y)
          (fun a b hab => by simpa [mkGap, gapOrdered, sessOrd] using hab)
  unfold plannerGapsOf
  cases rnd with
  | none => simpa using hbase
  | some r =>
      by_cases hr : r = 0 <;> simp [hr]
      · exact hbase
      · exact hbase.filter _

/-! ## Helper lemmas for the force-completeness claim -/

/-- `find?` on a key-equality predicate returns the (unique) element carrying
that key, when the mapped keys are duplicate-free. -/
theorem find?_key_unique {α : Type _} (key : α → Nat) {l : List α} {x : α} {k : Nat}
    (hnd : (l.map key).Nodup) (hx : x ∈ l) (hk : key x = k) :
    l.find? (fun a => key a == k) = some x := by
  induction l with
  | nil => cases hx
  | cons a t ih =>
      rw [List.map_cons, List.nodup_cons] at hnd
      rcases List.mem_cons.mp hx with rfl | hxt
      · exact List.find?_cons_of_pos _ (by simp [hk])
      · have hka : ¬ ((key a == k) = true) := by
          intro hcon
          rw [beq_iff_eq] at hcon
          have hmem : key x ∈ List.map key t := List.mem_map_of_mem key hxt
          rw [hk, ← hcon] at hmem
          exact hnd.1 hmem
        rw [List.find?_cons_of_neg t hka]
        exact ih hnd.2 hxt

/-- A join step keeps the session it was applied to. -/
def KeepsSession (f : Session → Option (Session × Race)) : Prop :=
  ∀ s p, f s = some p → p.1 = s

/-- Filter-mapping a session-keeping join over sessions with duplicate-free
ids yields pairs with duplicate-free session ids. -/
theorem nodup_join_ids {f : Session → Option (Session × Race)}
    (hf : KeepsSession f) :
    ∀ {l : List Session}, (l.map Session.id).Nodup →
      ((l.filterMap f).map (fun sr => sr.1.id)).Nodup := by
  intro l
  induction l with
  | nil => intro; simp
  | cons a t ih =>
      intro hnd
      rw [List.map_cons, List.nodup_cons] at hnd
      cases hfa : f a with
      | none => rw [List.filterMap_cons_none hfa]; exact ih hnd.2
      | some p =>
          rw [List.filterMap_cons_some hfa, List.map_cons, List.nodup_cons]
          refine ⟨?_, ih hnd.2⟩
          intro hcon
          obtain ⟨q, hq, hqid⟩ := List.mem_map.mp hcon
          obtain ⟨b, hb, hfb⟩ := List.mem_filterMap.mp hq
          have hpa : p.1 = a := hf a p hfa
          have hqb : q.1 = b := hf b q hfb
          apply hnd.1
          rw [← hpa, ← hqid, hqb]
          exact List.mem_map_of_mem Session.id hb

/-- Membership in the season join. -/
theorem mem_sessionRacePairs {db : DB} {sid : Nat} {s : Session} {r : Race} :
    (s, r) ∈ sessionRacePairsOfSeason db sid ↔
      s ∈ db.sessions ∧ raceById db s.raceId = some r ∧ r.seasonId = sid := by
  unfold sessionRacePairsOfSeason
  rw [List.mem_filterMap]
  constructor
  · rintro ⟨a, ha, hfa⟩
    cases hra : raceById db a.raceId with
    | none => simp [hra] at hfa
    | some r0 =>
        simp only [hra] at hfa
        by_cases h : (r0.seasonId == sid) = true
        · rw [if_pos h] at hfa
          rcases hfa with ⟨rfl, rfl⟩
          exact ⟨ha, hra, by simpa using h⟩
        · rw [if_neg h] at hfa
          cases hfa
  · rintro ⟨hs, hr, hsid⟩
    exact ⟨s, hs, by simp [hr, hsid]⟩

/-- Membership in the year join. -/
theorem mem_yearJoin {db : DB} {y : Nat} {s : Session} {r : Race} :
    (s, r) ∈ yearJoin db y ↔
      s ∈ db.sessions ∧ raceById db s.raceId = some r ∧
        ∃ se, seasonById db r.seasonId = some se ∧ se.year = y := by
  unfold yearJoin
  rw [List.mem_filterMap]
  constructor
  · rintro ⟨a, ha, hfa⟩
    cases hra : raceById db a.raceId with
    | none => simp [hra] at hfa
    | some r0 =>
        simp only [hra] at hfa
        cases hse : seasonById db r0.seasonId with
        | none => simp [hse] at hfa
        | some se =>
            simp only [hse] at hfa
            by_cases h : (se.year == y) = true
            · rw [if_pos h] at hfa
              injection hfa with hfa2
              obtain ⟨rfl, rfl⟩ := Prod.mk.injEq .. ▸ hfa2
              exact ⟨ha, hra, se, hse, by simpa using h⟩
            · rw [if_neg h] at hfa
              cases hfa
  · rintro ⟨hs, hr, se, hse, hy⟩
    exact ⟨s, hs, by simp [hr, hse, hy]⟩

/-- Round-filter predicate on a round number: satisfied by every round when
no filter is given. -/
def roundOkN (rnd : Option Nat) (n : Nat) : Bool :=
  match rnd with
  | some rr => n == rr
  | none => true

/-- Modelled on the spec side of C3: a persisted session "matches the year
(and round, if a round filter is given)" when its race exists, the race's
season exists with that year, and the race's round passes the filter. -/
def sessionMatches (db : DB) (y : Nat) (rnd : Option Nat) (s : Session) : Bool :=
  match raceById db s.raceId with
  | some r =>
      (match seasonById db r.seasonId with
       | some se => se.year == y
       | none => false) && roundOkN rnd r.round_number
  | none => false

/-- The ids of the persisted sessions matching the year/round filter. -/
def matchingSessionIds (db : DB) (y : Nat) (rnd : Option Nat) : List Nat :=
  (db.sessions.filter (sessionMatches db y rnd)).map Session.id

/-- The season join keeps session ids duplicate-free. -/
theorem nodup_sessionRacePairs_ids (db : DB) (sid : Nat)
    (hsid : (db.sessions.map Session.id).Nodup) :
    ((sessionRacePairsOfSeason db sid).map (fun sr => sr.1.id)).Nodup := by
  unfold sessionRacePairsOfSeason
  refine nodup_join_ids ?_ hsid
  intro s p hp
  cases hra : raceById db s.raceId with
  | none => simp [hra] at hp
  | some r =>
      simp only [hra] at hp
      by_cases h : (r.seasonId == sid) = true
      · rw [if_pos h] at hp
        cases hp
        rfl
      · rw [if_neg h] at hp
        cases hp

/-- The year join keeps session ids duplicate-free. -/
theorem nodup_yearJoin_ids (db : DB) (y : Nat)
    (hsid : (db.sessions.map Session.id).Nodup) :
    ((yearJoin db y).map (fun sr => sr.1.id)).Nodup := by
  unfold yearJoin
  refine nodup_join_ids ?_ hsid
  intro s p hp
  cases hra : raceById db s.raceId with
  | none => simp [hra] at hp
  | some r =>
      simp only [hra] at hp
      cases hse : seasonById db r.seasonId with
      | none => simp [hse] at hp
      | some se =>
          simp only [hse] at hp
          by_cases h : (se.year == y) = true
          · rw [if_pos h] at hp
            cases hp
            rfl
          · rw [if_neg h] at hp
            cases hp

/-- With force mode on and a meaningful round filter (absent, or a positive
round), the planner's output is the round-filtered base gap list followed by
the synthetic gaps for the remaining matching sessions. -/
theorem plannerGapsOf_force (db : DB) (y : Nat) (rnd : Option Nat)
    (hrnd : rnd = none ∨ ∃ r, rnd = some r ∧ 0 < r) :
    plannerGapsOf db y rnd true =
      (sessionGapsOf db y).filter (fun g => roundOkN rnd g.round_number) ++
        ((List.insertionSort sessOrd
            ((yearJoin db y).filter (fun sr => roundOkN rnd sr.2.round_number))).filter
          (fun sr => !((((sessionGapsOf db y).filter
              (fun g => roundOkN rnd g.round_number)).map
                (fun g => g.session_id)).contains (some sr.1.id)))).map (mkGap y) := by
  rcases hrnd with rfl | ⟨r, rfl, hr⟩
  · unfold plannerGapsOf forcedSessionsQuery
    simp [roundOkN, List.filter_true]
  · have hr0 : (r == 0) = false := by
      simp
      omega
    unfold plannerGapsOf forcedSessionsQuery
    simp [hr0, roundOkN]

/-- Ids of synthetic gaps built from a sub-list of pairs with duplicate-free
session ids are duplicate-free. -/
theorem nodup_gap_ids (y : Nat) {L M : List (Session × Race)} (hsub : List.Sublist M L)
    (hL : (L.map (fun sr => sr.1.id)).Nodup) :
    ((M.map (mkGap y)).map (fun g => g.session_id)).Nodup := by
  have h1 : ((M.map (mkGap y)).map (fun g => g.session_id))
      = (M.map (fun sr => sr.1.id)).map some := by
    simp only [List.map_map]
    rfl
  rw [h1]
  exact List.Nodup.map (Option.some_injective _) (List.Nodup.sublist (hsub.map _) hL)

/-- C3: with `force = True` (and a genuine round filter when given), the
planner's output is exactly the set of persisted sessions matching the year
and round filter — duplicate-free session ids, membership equivalence with
the matching sessions, and every emitted gap (in particular the synthetic
ones for sessions already fully loaded) carries `missing_weather = true`. -/
theorem planner_force_complete (db : DB) (y : Nat) (rnd : Option Nat)
    (hsid : (db.sessions.map Session.id).Nodup)
    (hsnid : (db.seasons.map Season.id).Nodup)
    (hrnd : rnd = none ∨ ∃ r, rnd = some r ∧ 0 < r) :
    (((get_sessions_to_process db y rnd true).2.map (fun g => g.session_id)).Nodup) ∧
    (∀ i : Nat,
      some i ∈ (get_sessions_to_process db y rnd true).2.map (fun g => g.session_id) ↔
        i ∈ matchingSessionIds db y rnd) ∧
    (∀ g ∈ (get_sessions_to_process db y rnd true).2, g.missing_weather = true) := by
  have hq : (get_sessions_to_process db y rnd true).2 = plannerGapsOf db y rnd true := by
    rw [get_sessions_to_process_eq]
  have hcontains : ∀ (l : List (Option Nat)) (x : Option Nat),
      l.contains x = true ↔ x ∈ l := by
    intro l x
    exact List.elem_iff
  rw [hq, plannerGapsOf_force db y rnd hrnd]
  set G1 := (sessionGapsOf db y).filter (fun g => roundOkN rnd g.round_number) with hG1
  set SP := List.insertionSort sessOrd
      ((yearJoin db y).filter (fun sr => roundOkN rnd sr.2.round_number)) with hSP
  set A := (SP.filter
      (fun sr => !((G1.map (fun g => g.session_id)).contains (some sr.1.id)))).map
        (mkGap y) with hA
  -- every pair of the forced query matches the year/round filter
  have hH2 : ∀ sr ∈ SP, sr.1 ∈ db.sessions ∧ sessionMatches db y rnd sr.1 = true := by
    rintro ⟨s, r⟩ hsr
    rw [hSP, List.mem_insertionSort, List.mem_filter] at hsr
    obtain ⟨hyj, hrok⟩ := hsr
    obtain ⟨hs, hra, se, hse, hyear⟩ := mem_yearJoin.mp hyj
    refine ⟨hs, ?_⟩
    simp only at hrok
    simp [sessionMatches, hra, hse, hyear, hrok]
  -- every matching session appears in the forced query
  have hH3 : ∀ s, s ∈ db.sessions → sessionMatches db y rnd s = true →
      ∃ r, (s, r) ∈ SP := by
    intro s hs hm
    cases hra : raceById db s.raceId with
    | none => simp [sessionMatches, hra] at hm
    | some r =>
        simp only [sessionMatches, hra, Bool.and_eq_true] at hm
        obtain ⟨hy, hrok⟩ := hm
        cases hse : seasonById db r.seasonId with
        | none => simp [hse] at hy
        | some se =>
            simp only [hse] at hy
            refine ⟨r, ?_⟩
            rw [hSP, List.mem_insertionSort, List.mem_filter]
            exact ⟨mem_yearJoin.mpr ⟨hs, hra, se, hse, by simpa using hy⟩, hrok⟩
  -- every base gap comes from a matching session
  have hH1 : ∀ g ∈ G1, ∃ sr : Session × Race, g = mkGap y sr ∧ sr.1 ∈ db.sessions ∧
      sessionMatches db y rnd sr.1 = true := by
    intro g hg
    rw [hG1, List.mem_filter] at hg
    obtain ⟨hg0, hrok⟩ := hg
    unfold sessionGapsOf at hg0
    cases hsea : seasonFind db y with
    | none =>
        simp only [hsea] at hg0
        exact absurd hg0 (List.not_mem_nil g)
    | some season =>
        simp only [hsea] at hg0
        obtain ⟨sr, hsrmem, rfl⟩ := List.mem_map.mp hg0
        rw [List.mem_filter, List.mem_insertionSort] at hsrmem
        obtain ⟨s, r⟩ := sr
        obtain ⟨hs, hra, hrs⟩ := mem_sessionRacePairs.mp hsrmem.1
        have hseamem : season ∈ db.seasons := List.mem_of_find?_eq_some hsea
        have hseayear : season.year = y := by simpa using List.find?_some hsea
        have hbyid : seasonById db season.id = some season := by
          unfold seasonById
          exact find?_key_unique Season.id hsnid hseamem rfl
        refine ⟨(s, r), rfl, hs, ?_⟩
        have hrok' : roundOkN rnd r.round_number = true := by
          simpa [mkGap] using hrok
        simp [sessionMatches, hra, hrs, hbyid, hseayear, hrok']
  -- session ids of the sorted forced query are duplicate-free
  have hndSP : (SP.map (fun sr => sr.1.id)).Nodup := by
    rw [hSP]
    have h0 : (((yearJoin db y).filter
        (fun sr => roundOkN rnd sr.2.round_number)).map (fun sr => sr.1.id)).Nodup :=
      List.Nodup.sublist ((List.filter_sublist _).map _) (nodup_yearJoin_ids db y hsid)
    exact ((List.perm_insertionSort sessOrd _).map _).nodup_iff.mpr h0
  -- session ids of the base gap list are duplicate-free
  have hndG1 : (G1.map (fun g => g.session_id)).Nodup := by
    rw [hG1]
    unfold sessionGapsOf
    cases hsea : seasonFind db y with
    | none => simp [hsea]
    | some season =>
        simp only [hsea]
        rw [List.filter_map]
        have hndsorted : ((List.insertionSort sessOrd
            (sessionRacePairsOfSeason db season.id)).map (fun sr => sr.1.id)).Nodup :=
          ((List.perm_insertionSort sessOrd _).map _).nodup_iff.mpr
            (nodup_sessionRacePairs_ids db season.id hsid)
        exact nodup_gap_ids y
          ((List.filter_sublist _).trans (List.filter_sublist _)) hndsorted
  -- session ids of the synthetic additions are duplicate-free
  have hndA : (A.map (fun g => g.session_id)).Nodup := by
    rw [hA]
    exact nodup_gap_ids y (List.filter_sublist _) hndSP
  -- the two id lists are disjoint by the force-mode de-duplication
  have hdisj : ∀ x ∈ G1.map (fun g => g.session_id),
      x ∉ A.map (fun g => g.session_id) := by
    intro x hx hxA
    rw [hA] at hxA
    obtain ⟨g, hgA, hgid⟩ := List.mem_map.mp hxA
    obtain ⟨sr, hsrm, rfl⟩ := List.mem_map.mp hgA
    rw [List.mem_filter] at hsrm
    have hnc := hsrm.2
    simp only [Bool.not_eq_true'] at hnc
    rw [← hgid] at hx
    have hmem : (some sr.1.id) ∈ G1.map (fun g => g.session_id) := by
      simpa [mkGap] using hx
    rw [(hcontains _ _).mpr hmem] at hnc
    cases hnc
  refine ⟨?_, ?_, ?_⟩
  · rw [List.map_append]
    exact List.Nodup.append hndG1 hndA hdisj
  · intro i
    rw [List.map_append, List.mem_append]
    constructor
    · rintro (hx | hx)
      · obtain ⟨g, hgG, hgid⟩ := List.mem_map.mp hx
        obtain ⟨sr, rfl, hs, hm⟩ := hH1 g hgG
        have hid : sr.1.id = i := by simpa [mkGap] using hgid
        unfold matchingSessionIds
        exact hid ▸ List.mem_map_of_mem Session.id (List.mem_filter.mpr ⟨hs, hm⟩)
      · obtain ⟨g, hgA, hgid⟩ := List.mem_map.mp hx
        rw [hA] at hgA
        obtain ⟨sr, hsrm, rfl⟩ := List.mem_map.mp hgA
        rw [List.mem_filter] at hsrm
        obtain ⟨hs, hm⟩ := hH2 sr hsrm.1
        have hid : sr.1.id = i := by simpa [mkGap] using hgid
        unfold matchingSessionIds
        exact hid ▸ List.mem_map_of_mem Session.id (List.mem_filter.mpr ⟨hs, hm⟩)
    · intro hmem
      unfold matchingSessionIds at hmem
      obtain ⟨s, hsf, hid⟩ := List.mem_map.mp hmem
      rw [List.mem_filter] at hsf
      obtain ⟨r, hsrSP⟩ := hH3 s hsf.1 hsf.2
      by_cases hc : ((G1.map (fun g => g.session_id)).contains (some s.id)) = true
      · left
        have hmemid : (some s.id) ∈ G1.map (fun g => g.session_id) :=
          (hcontains _ _).mp hc
        rw [show Session.id s = i from hid] at hmemid
        exact hmemid
      · right
        have hcf : (G1.map (fun g => g.session_id)).contains (some s.id) = false := by
          cases hb : (G1.map (fun g => g.session_id)).contains (some s.id) with
          | false => rfl
          | true => exact absurd hb hc
        have hpred : (!((G1.map (fun g => g.session_id)).contains (some s.id))) = true := by
          rw [hcf]
          rfl
        have hmemA : mkGap y (s, r) ∈ A := by
          rw [hA]
          exact List.mem_map_of_mem (mkGap y) (List.mem_filter.mpr ⟨hsrSP, hpred⟩)
        refine List.mem_map.mpr ⟨mkGap y (s, r), hmemA, ?_⟩
        simp [mkGap]
        exact hid
  · intro g hg
    rcases List.mem_append.mp hg with hg | hg
    · obtain ⟨sr, rfl, -, -⟩ := hH1 g hg
      simp [mkGap]
    · rw [hA] at hg
      obtain ⟨sr, -, rfl⟩ := List.mem_map.mp hg
      simp [mkGap]

/-- Store for the C3 witness: one 2024 race with two sessions, one of which
already has weather data. -/
def c3db : DB :=
  { seasons := [{ id := 1, year := 2024 }]
    races := [{ id := 10, seasonId := 1, round_number := 1, name := "Sample GP",
                event_format := "conventional" }]
    sessions := [{ id := 100, raceId := 10, session_number := 1,
                   session_type := "Practice 1" },
                 { id := 101, raceId := 10, session_number := 2,
                   session_type := "Practice 2" }]
    weather := [{ id := 1000, sessionId := 100 }] }

/-- C3 witness: on the concrete store `c3db` (with duplicate-free ids and no
round filter), the forced planner output covers exactly the matching
sessions. -/
theorem planner_force_complete_witness :
    ((c3db.sessions.map Session.id).Nodup) ∧
    ((c3db.seasons.map Season.id).Nodup) ∧
    (∀ i : Nat,
      some i ∈ (get_sessions_to_process c3db 2024 none true).2.map
        (fun g => g.session_id) ↔ i ∈ matchingSessionIds c3db 2024 none) :=
  ⟨by decide, by decide,
    (planner_force_complete c3db 2024 none (by decide) (by decide) (Or.inl rfl)).2.1⟩

end F1
